import Mathlib

/-!
Verification of the `leetify` Rust client library.

The development shallowly embeds the library's data model and operations:
* `types.rs`: identifier classification (`Id`/`PlayerId`), `DataSource`,
  the fixed-length deserializers `deserialize_score` / `deserialize_team_scores`;
* `error.rs`: the `Error` taxonomy;
* `client.rs`: `ClientBuilder`, `Client`, request construction and
  `handle_response`, with the HTTP transport abstracted as a function
  `Request → Response` (one request, one response);
* `player.rs`: the `Player` facade.

Rust strings are modelled as Lean `String`s.  Where the Rust code takes a
byte length (`str::len`), the model uses the character count: every length
test in this code base is conjoined with an all-ASCII character test (hex
digits or decimal digits), and for ASCII-only strings the two notions of
length coincide, while when a non-ASCII character is present the adjacent
character test is false in both readings, so each conjunction has the same
value in both readings.
-/

namespace Leetify

/-- Rust `char::is_ascii_digit`: the character is one of the ASCII digits 0-9. -/
def is_ascii_digit (c : Char) : Bool :=
  decide ('0' ≤ c) && decide (c ≤ '9')

/-- Rust `char::is_ascii_hexdigit`: an ASCII digit or one of a-f / A-F. -/
def is_ascii_hexdigit (c : Char) : Bool :=
  is_ascii_digit c || (decide ('a' ≤ c) && decide (c ≤ 'f'))
    || (decide ('A' ≤ c) && decide (c ≤ 'F'))

/-- Rust `Steam64Id(pub String)` from types.rs: opaque wrapper around a string. -/
structure Steam64Id where
  val : String
deriving DecidableEq

/-- Rust `LeetifyId(pub String)` from types.rs: opaque wrapper around a string. -/
structure LeetifyId where
  val : String
deriving DecidableEq

/-- Rust `enum Id` from types.rs (re-exported and used as `PlayerId`):
either a Steam64 ID or a Leetify (service) ID. -/
inductive PlayerId where
  | Steam64 (id : Steam64Id)
  | Leetify (id : LeetifyId)
deriving DecidableEq

/-- The segment lengths `[8, 4, 4, 4, 12]` used by `is_uuid_format`. -/
def uuid_part_lengths : List Nat := [8, 4, 4, 4, 12]

/-- Function `is_uuid_format` from types.rs: split on `-`; exactly 5 segments, of
lengths 8-4-4-4-12, every character an ASCII hex digit.  Rust's early
`return false` on a segment count other than 5 is the `if` branch. -/
def is_uuid_format (s : String) : Bool :=
  let parts : List (List Char) := s.data.splitOn '-'
  if parts.length ≠ 5 then
    false
  else
    (parts.zip uuid_part_lengths).all fun pl =>
      pl.1.length == pl.2 && pl.1.all is_ascii_hexdigit

/-- Rust `impl From<&str> for Id` from types.rs: UUID shape classifies as
Leetify, otherwise all-digits with length ≥ 15 classifies as Steam64,
otherwise default to Leetify. -/
def PlayerId.from_str (value : String) : PlayerId :=
  if is_uuid_format value then
    .Leetify ⟨value⟩
  else if value.data.all is_ascii_digit && decide (15 ≤ value.length) then
    .Steam64 ⟨value⟩
  else
    .Leetify ⟨value⟩

/-- Rust `enum DataSource` from types.rs. -/
inductive DataSource where
  | FACEIT
  | Matchmaking
  | Other (s : String)
deriving DecidableEq

/-- Rust `DataSource::as_str` from types.rs: the canonical string form. -/
def DataSource.as_str : DataSource → String
  | .FACEIT => "faceit"
  | .Matchmaking => "matchmaking"
  | .Other s => s

/-- Rust `impl From<&str> for DataSource` from types.rs (the same match is used
by `From<String>` and by the `Deserialize` impl): total, unknown values
fall into `Other`.  The Rust `match` on string literals is the if chain. -/
def DataSource.from_str (value : String) : DataSource :=
  if value = "faceit" then .FACEIT
  else if value = "matchmaking" then .Matchmaking
  else .Other value

/-- Rust `struct TeamScore` from types.rs. -/
structure TeamScore where
  team_number : Nat
  score : Nat
deriving DecidableEq

/-- The message of `serde::de::Error::invalid_length(len, &exp)`, whose
`Display` form is `invalid length {len}, expected {exp}`. -/
def invalid_length_msg (len : Nat) (exp : String) : String :=
  "invalid length " ++ toString len ++ ", expected " ++ exp

/-- Function `deserialize_score` from types.rs, modelled after the inner `Vec<u32>`
has been decoded: a list of length exactly 2 yields the two elements in
order, any other length is a length-mismatch error. -/
def deserialize_score (vec : List Nat) : Except String (Nat × Nat) :=
  if h : vec.length = 2 then
    .ok (vec[0], vec[1])
  else
    .error (invalid_length_msg vec.length "exactly 2 elements")

/-- Function `deserialize_team_scores` from types.rs, modelled after the inner
`Vec<TeamScore>` has been decoded: on length 2 the two `iter.next()` calls
yield the first two elements (the `ok_or_else` fallbacks are the
unreachable short-list cases), otherwise a length-mismatch error. -/
def deserialize_team_scores (vec : List TeamScore) :
    Except String (TeamScore × TeamScore) :=
  if vec.length = 2 then
    match vec with
    | a :: b :: _ => .ok (a, b)
    | [_] => .error "Missing second element"
    | [] => .error "Missing first element"
  else
    .error (invalid_length_msg vec.length "exactly 2 elements")

/-- Rust `enum Error` from error.rs.  `Http` and `Json` carry the message of the
wrapped foreign error. -/
inductive Error where
  | Http (msg : String)
  | Json (msg : String)
  | Api (status : Nat) (msg : String)
  | InvalidApiKey
  | ServerError
  | MissingParameter (p : String)
  | InvalidGameId (g : String)
  | InvalidDataSource (d : String)
deriving DecidableEq

/-- Rust `std::time::Duration` (seconds and nanoseconds). -/
structure Duration where
  secs : Nat
  nanos : Nat
deriving DecidableEq

/-- Rust `Duration::from_secs`. -/
def Duration.from_secs (s : Nat) : Duration := ⟨s, 0⟩

/-- Constant `DEFAULT_BASE_URL` from client.rs. -/
def DEFAULT_BASE_URL : String := "https://api-public.cs-prod.leetify.com"

/-- Constant `API_KEY_HEADER` from client.rs. -/
def API_KEY_HEADER : String := "_leetify_key"

/-- Constant `DEFAULT_TIMEOUT` from client.rs: 30 seconds. -/
def DEFAULT_TIMEOUT : Duration := Duration.from_secs 30

/-- The part of `reqwest::ClientBuilder` this library touches: the
per-request timeout (absent by default). -/
structure ReqwestClientBuilder where
  timeout : Option Duration
deriving DecidableEq

/-- Rust `reqwest::Client::builder()`. -/
def ReqwestClientBuilder.new : ReqwestClientBuilder := ⟨none⟩

/-- Rust `reqwest::ClientBuilder::timeout`. -/
def ReqwestClientBuilder.set_timeout (b : ReqwestClientBuilder) (t : Duration) :
    ReqwestClientBuilder :=
  { b with timeout := some t }

/-- The part of a built `reqwest::Client` this library observes: the
timeout it applies to every request it sends. -/
structure ReqwestClient where
  timeout : Option Duration
deriving DecidableEq

/-- Rust `reqwest::ClientBuilder::build` (its failure modes are internal to the
transport and out of scope, so the model is total). -/
def ReqwestClientBuilder.build_client (b : ReqwestClientBuilder) : ReqwestClient :=
  ⟨b.timeout⟩

/-- An outbound HTTP GET request as this library builds it: URL, query
parameters, headers, and the transport timeout that applies to it. -/
structure Request where
  url : String
  query : List (String × String)
  headers : List (String × String)
  timeout : Option Duration
deriving DecidableEq

/-- A received HTTP response: status code plus the body text (the model
covers the paths where the body was read successfully). -/
structure Response where
  status : Nat
  body : String
deriving DecidableEq

/-- Rust `reqwest::Client::get`: a fresh request for the URL, carrying the
client's timeout, with no query parameters and no headers yet. -/
def ReqwestClient.get (rc : ReqwestClient) (url : String) : Request :=
  { url := url, query := [], headers := [], timeout := rc.timeout }

/-- Rust `reqwest::RequestBuilder::query`: attach the query parameters. -/
def Request.set_query (r : Request) (q : List (String × String)) : Request :=
  { r with query := q }

/-- Rust `reqwest::RequestBuilder::header`: append one header. -/
def Request.add_header (r : Request) (k v : String) : Request :=
  { r with headers := r.headers ++ [(k, v)] }

/-- Rust `struct ClientBuilder` from client.rs. -/
structure ClientBuilder where
  base_url : Option String
  api_key : Option String
  timeout : Option Duration
  client_builder : ReqwestClientBuilder
deriving DecidableEq

/-- Rust `ClientBuilder::new` from client.rs: no base URL, no API key, timeout
preset to `DEFAULT_TIMEOUT`, fresh transport builder. -/
def ClientBuilder.new : ClientBuilder :=
  { base_url := none
    api_key := none
    timeout := some DEFAULT_TIMEOUT
    client_builder := ReqwestClientBuilder.new }

/-- Rust `ClientBuilder::base_url` from client.rs. -/
def ClientBuilder.set_base_url (b : ClientBuilder) (url : String) : ClientBuilder :=
  { b with base_url := some url }

/-- Rust `ClientBuilder::api_key` from client.rs. -/
def ClientBuilder.set_api_key (b : ClientBuilder) (key : String) : ClientBuilder :=
  { b with api_key := some key }

/-- Rust `ClientBuilder::timeout` from client.rs: records the timeout and also
forwards it to the transport builder. -/
def ClientBuilder.set_timeout (b : ClientBuilder) (t : Duration) : ClientBuilder :=
  { b with timeout := some t, client_builder := b.client_builder.set_timeout t }

/-- Rust `ClientBuilder::client_builder` from client.rs: replace the transport
builder (advanced passthrough configuration). -/
def ClientBuilder.set_client_builder (b : ClientBuilder) (rb : ReqwestClientBuilder) :
    ClientBuilder :=
  { b with client_builder := rb }

/-- Rust `struct Client` from client.rs: built transport, base URL, optional key. -/
structure Client where
  client : ReqwestClient
  base_url : String
  api_key : Option String
deriving DecidableEq

/-- Rust `ClientBuilder::build` from client.rs: the transport builder's timeout
is overwritten with `self.timeout.unwrap_or(DEFAULT_TIMEOUT)`, the base
URL defaults to `DEFAULT_BASE_URL`. -/
def ClientBuilder.build (b : ClientBuilder) : Except Error Client :=
  let http_client :=
    (b.client_builder.set_timeout (b.timeout.getD DEFAULT_TIMEOUT)).build_client
  .ok
    { client := http_client
      base_url := b.base_url.getD DEFAULT_BASE_URL
      api_key := b.api_key }

/-- Rust `Client::build_profile_query_params` from client.rs. -/
def Client.build_profile_query_params (_c : Client) (id : PlayerId) :
    List (String × String) :=
  match id with
  | .Steam64 sid => [("steam64_id", sid.val)]
  | .Leetify lid => [("id", lid.val)]

/-- Rust `Client::add_api_key_header` from client.rs: attach the
`_leetify_key` header when an API key is configured. -/
def Client.add_api_key_header (c : Client) (request : Request) : Request :=
  match c.api_key with
  | some api_key => request.add_header API_KEY_HEADER api_key
  | none => request

/-- Rust `reqwest::StatusCode::is_success`: the 2xx range. -/
def status_is_success (status : Nat) : Bool :=
  decide (200 ≤ status) && decide (status < 300)

/-- The message built by `Client::handle_response` when a 2xx body fails
to decode: it embeds the decode error and the raw body. -/
def json_decode_failure_msg (e response_text : String) : String :=
  "Failed to parse JSON response: " ++ e ++ ". Response body: " ++ response_text

/-- Rust `Client::handle_response` from client.rs.  `decode` stands for
`serde_json::from_str::<T>`.  Rust's early return on `!status.is_success()`
is the `else` branch here, and its `match` on the status literals is the
inner if chain. -/
def Client.handle_response {α : Type} (_c : Client)
    (decode : String → Except String α) (response : Response) : Except Error α :=
  let status := response.status
  let response_text := response.body
  if status_is_success status then
    match decode response_text with
    | .ok json => .ok json
    | .error e => .error (.Api status (json_decode_failure_msg e response_text))
  else if status = 401 then .error .InvalidApiKey
  else if status = 500 then .error .ServerError
  else .error (.Api status response_text)

/-- The request built by `Client::get_profile`: query parameters attached
only when non-empty, then the API key header. -/
def Client.get_profile_request (c : Client) (id : PlayerId) : Request :=
  let url := c.base_url ++ "/v3/profile"
  let query_params := c.build_profile_query_params id
  let request := c.client.get url
  let request := if query_params.isEmpty then request else request.set_query query_params
  c.add_api_key_header request

/-- The request built by `Client::get_profile_matches`. -/
def Client.get_profile_matches_request (c : Client) (id : PlayerId) : Request :=
  let url := c.base_url ++ "/v3/profile/matches"
  let query_params := c.build_profile_query_params id
  let request := c.client.get url
  let request := if query_params.isEmpty then request else request.set_query query_params
  c.add_api_key_header request

/-- The request built by `Client::get_match_by_game_id`: the game ID goes
into the path. -/
def Client.get_match_by_game_id_request (c : Client) (game_id : String) : Request :=
  let url := c.base_url ++ "/v2/matches/" ++ game_id
  c.add_api_key_header (c.client.get url)

/-- The request built by `Client::get_match_by_data_source`: canonical
source string and source-specific ID in the path. -/
def Client.get_match_by_data_source_request (c : Client) (data_source : DataSource)
    (data_source_id : String) : Request :=
  let url := c.base_url ++ "/v2/matches/" ++ data_source.as_str ++ "/" ++ data_source_id
  c.add_api_key_header (c.client.get url)

/-- The request built by `Client::validate_api_key`. -/
def Client.validate_api_key_request (c : Client) : Request :=
  let url := c.base_url ++ "/api-key/validate"
  c.add_api_key_header (c.client.get url)

/-- Rust `Client::get_profile` from client.rs: build the request, send it
through the transport, handle the response. -/
def Client.get_profile {α : Type} (c : Client) (transport : Request → Response)
    (decode : String → Except String α) (id : PlayerId) : Except Error α :=
  c.handle_response decode (transport (c.get_profile_request id))

/-- Rust `Client::get_profile_matches` from client.rs. -/
def Client.get_profile_matches {α : Type} (c : Client) (transport : Request → Response)
    (decode : String → Except String α) (id : PlayerId) : Except Error α :=
  c.handle_response decode (transport (c.get_profile_matches_request id))

/-- Rust `Client::get_match_by_game_id` from client.rs. -/
def Client.get_match_by_game_id {α : Type} (c : Client) (transport : Request → Response)
    (decode : String → Except String α) (game_id : String) : Except Error α :=
  c.handle_response decode (transport (c.get_match_by_game_id_request game_id))

/-- Rust `Client::get_match_by_data_source` from client.rs. -/
def Client.get_match_by_data_source {α : Type} (c : Client)
    (transport : Request → Response) (decode : String → Except String α)
    (data_source : DataSource) (data_source_id : String) : Except Error α :=
  c.handle_response decode
    (transport (c.get_match_by_data_source_request data_source data_source_id))

/-- Rust `Client::validate_api_key` from client.rs: a one-shot status-code
classifier; the Rust `match` on the status is the if chain. -/
def Client.validate_api_key (c : Client) (transport : Request → Response) :
    Except Error Unit :=
  let response := transport c.validate_api_key_request
  let status := response.status
  if status = 200 then .ok ()
  else if status = 401 then .error .InvalidApiKey
  else if status = 500 then .error .ServerError
  else .error (.Api status ("Unexpected status code: " ++ toString status))

/-- Rust `struct Player` from player.rs: one identifier bound to a client. -/
structure Player where
  id : PlayerId
  client : Client

/-- Rust `Player::new` from player.rs. -/
def Player.new (id : PlayerId) (client : Client) : Player :=
  { id := id, client := client }

/-- Rust `Player::profile` from player.rs:
`self.client.get_profile(self.id.clone()).await`. -/
def Player.profile {α : Type} (p : Player) (transport : Request → Response)
    (decode : String → Except String α) : Except Error α :=
  p.client.get_profile transport decode p.id

/-- Rust `Player::matches` from player.rs:
`self.client.get_profile_matches(self.id.clone()).await`. -/
def Player.matches {α : Type} (p : Player) (transport : Request → Response)
    (decode : String → Except String α) : Except Error α :=
  p.client.get_profile_matches transport decode p.id

/-- Returns `true` exactly when a result is the `Json` error variant. -/
def returns_json_error {α : Type} : Except Error α → Bool
  | .error (.Json _) => true
  | _ => false

/-- The status-then-decode failure mapping of `Client::handle_response`,
as a predicate on an operation's result. -/
def response_mapping {α : Type} (result : Except Error α)
    (decode : String → Except String α) (resp : Response) : Prop :=
  (resp.status = 401 → result = .error .InvalidApiKey) ∧
  (resp.status = 500 → result = .error .ServerError) ∧
  (status_is_success resp.status = false → resp.status ≠ 401 → resp.status ≠ 500 →
    result = .error (.Api resp.status resp.body)) ∧
  (∀ e, status_is_success resp.status = true → decode resp.body = .error e →
    result = .error (.Api resp.status (json_decode_failure_msg e resp.body))) ∧
  (∀ v, status_is_success resp.status = true → decode resp.body = .ok v →
    result = .ok v)

/-- A concrete client with no API key, used to instantiate theorems. -/
def test_client : Client :=
  { client := ⟨none⟩, base_url := "https://t", api_key := none }

/-- A concrete client with an API key, used to instantiate theorems. -/
def test_client_keyed : Client :=
  { client := ⟨none⟩, base_url := "https://t", api_key := some "k1" }

/-- A transport that answers every request with status 401. -/
def transport_401 : Request → Response := fun _ => ⟨401, "unauthorized"⟩

/-- A decoder that rejects every body. -/
def decode_fail : String → Except String Nat := fun _ => .error "boom"

/-- The client produced by building `ClientBuilder::new` unchanged. -/
def default_built_client : Client :=
  { client := ⟨some (Duration.from_secs 30)⟩
    base_url := DEFAULT_BASE_URL
    api_key := none }

/-- An all-ASCII-digit string contains no hyphen, so splitting it on `-`
yields a single segment and `is_uuid_format` rejects it. -/
theorem is_uuid_format_eq_false_of_all_digits (s : String)
    (h : s.data.all is_ascii_digit = true) : is_uuid_format s = false := by
  have hnd : ∀ c ∈ s.data, ¬((c == '-') = true) := by
    intro c hc hbeq
    have hd := List.all_eq_true.mp h c hc
    rw [beq_iff_eq] at hbeq
    subst hbeq
    exact absurd hd (by decide)
  have hsingle : s.data.splitOn '-' = [s.data] :=
    List.splitOnP_eq_single _ s.data hnd
  simp [is_uuid_format, hsingle]

/-- C1: `Id::from(&str)` is total and follows the case order: UUID-shaped
strings (5 hyphen-separated segments of lengths 8-4-4-4-12, all ASCII hex
digits) classify as the Leetify (service identifier) variant; otherwise
all-ASCII-digit strings of length ≥ 15 classify as Steam64; everything
else defaults to Leetify.  In particular every digit-only string of
length ≥ 15 is Steam64 and every UUID-shaped string is Leetify. -/
theorem c1_id_classification_cases (s : String) :
    (is_uuid_format s = true → PlayerId.from_str s = .Leetify ⟨s⟩) ∧
    (is_uuid_format s = false →
      (s.data.all is_ascii_digit && decide (15 ≤ s.length)) = true →
      PlayerId.from_str s = .Steam64 ⟨s⟩) ∧
    (is_uuid_format s = false →
      (s.data.all is_ascii_digit && decide (15 ≤ s.length)) = false →
      PlayerId.from_str s = .Leetify ⟨s⟩) ∧
    (s.data.all is_ascii_digit = true → 15 ≤ s.length →
      PlayerId.from_str s = .Steam64 ⟨s⟩) := by
  refine ⟨?_, ?_, ?_, ?_⟩
  · intro h
    simp [PlayerId.from_str, h]
  · intro h1 h2
    simp [PlayerId.from_str, h1, h2]
  · intro h1 h2
    simp only [PlayerId.from_str, h1, h2]
    simp
  · intro h1 h2
    have hu := is_uuid_format_eq_false_of_all_digits s h1
    simp [PlayerId.from_str, hu, h1, h2]

/-- Witness for C1: a 17-digit string classifies as Steam64 and a
UUID-shaped string classifies as Leetify. -/
theorem c1_id_classification_cases_witness :
    ("76561198283431555".data.all is_ascii_digit = true ∧
      15 ≤ "76561198283431555".length ∧
      PlayerId.from_str "76561198283431555" = .Steam64 ⟨"76561198283431555"⟩) ∧
    (is_uuid_format "5ea07280-2399-4c7e-88ab-f2f7db0c449f" = true ∧
      PlayerId.from_str "5ea07280-2399-4c7e-88ab-f2f7db0c449f" =
        .Leetify ⟨"5ea07280-2399-4c7e-88ab-f2f7db0c449f"⟩) :=
  ⟨⟨by decide, by decide,
      (c1_id_classification_cases "76561198283431555").2.2.2 (by decide) (by decide)⟩,
    by decide,
    (c1_id_classification_cases "5ea07280-2399-4c7e-88ab-f2f7db0c449f").1 (by decide)⟩

/-- C2: decoding the match-score (`[u32; 2]`) or team-scores
(`[TeamScore; 2]`) array fails with a length-mismatch error whenever the
decoded sequence does not have exactly 2 elements, and on exactly 2
elements succeeds with the two elements in their original order. -/
theorem c2_fixed_cardinality_decode (v : List Nat) (w : List TeamScore) :
    (v.length ≠ 2 →
      deserialize_score v = .error (invalid_length_msg v.length "exactly 2 elements")) ∧
    (∀ a b, v = [a, b] → deserialize_score v = .ok (a, b)) ∧
    (w.length ≠ 2 →
      deserialize_team_scores w =
        .error (invalid_length_msg w.length "exactly 2 elements")) ∧
    (∀ a b, w = [a, b] → deserialize_team_scores w = .ok (a, b)) := by
  refine ⟨?_, ?_, ?_, ?_⟩
  · intro h
    simp [deserialize_score, h]
  · rintro a b rfl
    simp [deserialize_score]
  · intro h
    simp [deserialize_team_scores, h]
  · rintro a b rfl
    simp [deserialize_team_scores]

/-- Witness for C2: length 1 and 0 fail with the length-mismatch message,
length 2 succeeds in order. -/
theorem c2_fixed_cardinality_decode_witness :
    (([3] : List Nat).length ≠ 2 ∧
      deserialize_score [3] = .error (invalid_length_msg 1 "exactly 2 elements")) ∧
    deserialize_score [3, 4] = .ok (3, 4) ∧
    (([] : List TeamScore).length ≠ 2 ∧
      deserialize_team_scores [] =
        .error (invalid_length_msg 0 "exactly 2 elements")) ∧
    deserialize_team_scores [⟨1, 13⟩, ⟨2, 7⟩] = .ok (⟨1, 13⟩, ⟨2, 7⟩) :=
  ⟨⟨by decide, (c2_fixed_cardinality_decode [3] []).1 (by decide)⟩,
    (c2_fixed_cardinality_decode [3, 4] []).2.1 3 4 rfl,
    ⟨by decide, (c2_fixed_cardinality_decode [3] []).2.2.1 (by decide)⟩,
    (c2_fixed_cardinality_decode [3] [⟨1, 13⟩, ⟨2, 7⟩]).2.2.2 _ _ rfl⟩

/-- Lemma: `Client::handle_response` realizes the status-then-decode mapping. -/
theorem handle_response_mapping {α : Type} (c : Client)
    (decode : String → Except String α) (resp : Response) :
    response_mapping (c.handle_response decode resp) decode resp := by
  refine ⟨?_, ?_, ?_, ?_, ?_⟩
  · intro h
    simp [Client.handle_response, h, status_is_success]
  · intro h
    simp [Client.handle_response, h, status_is_success]
  · intro h h1 h2
    simp [Client.handle_response, h, h1, h2]
  · intro e hs hd
    simp [Client.handle_response, hs, hd]
  · intro v hs hd
    simp [Client.handle_response, hs, hd]

/-- C3: every body-returning operation maps a received response by status
first and decode outcome second: 401 → InvalidApiKey, 500 → ServerError,
other non-2xx → Api(status, raw body), 2xx with failing decode →
Api(status, message embedding the decode error and the raw body), 2xx
with succeeding decode → the decoded record. -/
theorem c3_operation_failure_mapping {α β γ δ : Type} (c : Client)
    (transport : Request → Response)
    (dp : String → Except String α) (dm : String → Except String β)
    (dg : String → Except String γ) (dd : String → Except String δ)
    (id : PlayerId) (game_id : String) (ds : DataSource) (ds_id : String) :
    response_mapping (c.get_profile transport dp id) dp
      (transport (c.get_profile_request id)) ∧
    response_mapping (c.get_profile_matches transport dm id) dm
      (transport (c.get_profile_matches_request id)) ∧
    response_mapping (c.get_match_by_game_id transport dg game_id) dg
      (transport (c.get_match_by_game_id_request game_id)) ∧
    response_mapping (c.get_match_by_data_source transport dd ds ds_id) dd
      (transport (c.get_match_by_data_source_request ds ds_id)) :=
  ⟨handle_response_mapping c dp _, handle_response_mapping c dm _,
    handle_response_mapping c dg _, handle_response_mapping c dd _⟩

/-- Witness for C3: a transport answering 401 makes `get_profile` return
`InvalidApiKey`. -/
theorem c3_operation_failure_mapping_witness :
    (transport_401 (test_client.get_profile_request (.Steam64 ⟨"1"⟩))).status = 401 ∧
    test_client.get_profile transport_401 decode_fail (.Steam64 ⟨"1"⟩) =
      .error .InvalidApiKey :=
  ⟨rfl,
    (c3_operation_failure_mapping test_client transport_401 decode_fail decode_fail
        decode_fail decode_fail (.Steam64 ⟨"1"⟩) "g" .FACEIT "d").1.1 rfl⟩

/-- C4: `validate_api_key` is a one-shot status classifier:
200 → Ok(()), 401 → InvalidApiKey, 500 → ServerError, anything else →
Api(status, descriptive text). -/
theorem c4_validate_api_key_classifier (c : Client) (transport : Request → Response) :
    ((transport c.validate_api_key_request).status = 200 →
      c.validate_api_key transport = .ok ()) ∧
    ((transport c.validate_api_key_request).status = 401 →
      c.validate_api_key transport = .error .InvalidApiKey) ∧
    ((transport c.validate_api_key_request).status = 500 →
      c.validate_api_key transport = .error .ServerError) ∧
    ((transport c.validate_api_key_request).status ≠ 200 →
      (transport c.validate_api_key_request).status ≠ 401 →
      (transport c.validate_api_key_request).status ≠ 500 →
      c.validate_api_key transport =
        .error (.Api (transport c.validate_api_key_request).status
          ("Unexpected status code: " ++
            toString (transport c.validate_api_key_request).status))) := by
  refine ⟨?_, ?_, ?_, ?_⟩ <;> intros <;> simp [Client.validate_api_key, *]

/-- Witness for C4: a transport answering 401 makes `validate_api_key`
return `InvalidApiKey`. -/
theorem c4_validate_api_key_classifier_witness :
    (transport_401 test_client.validate_api_key_request).status = 401 ∧
    test_client.validate_api_key transport_401 = .error .InvalidApiKey :=
  ⟨rfl, (c4_validate_api_key_classifier test_client transport_401).2.1 rfl⟩

/-- C5: `DataSource` string conversion is total: `"faceit"` → FACEIT,
`"matchmaking"` → Matchmaking, anything else → Other; `as_str` is its
right inverse on every string, and its left inverse on every
`DataSource` except `Other` values literally equal to `"faceit"` or
`"matchmaking"`. -/
theorem c5_data_source_round_trip :
    (∀ s : String, (DataSource.from_str s).as_str = s) ∧
    (∀ s : String, s ≠ "faceit" → s ≠ "matchmaking" →
      DataSource.from_str s = .Other s) ∧
    DataSource.from_str "faceit" = .FACEIT ∧
    DataSource.from_str "matchmaking" = .Matchmaking ∧
    (∀ d : DataSource, (∀ s, d = .Other s → s ≠ "faceit" ∧ s ≠ "matchmaking") →
      DataSource.from_str d.as_str = d) := by
  refine ⟨?_, ?_, by decide, by decide, ?_⟩
  · intro s
    by_cases h1 : s = "faceit"
    · subst h1; decide
    · by_cases h2 : s = "matchmaking"
      · subst h2; decide
      · simp [DataSource.from_str, DataSource.as_str, h1, h2]
  · intro s h1 h2
    simp [DataSource.from_str, h1, h2]
  · intro d hd
    cases d with
    | FACEIT => decide
    | Matchmaking => decide
    | Other s =>
      obtain ⟨h1, h2⟩ := hd s rfl
      simp [DataSource.as_str, DataSource.from_str, h1, h2]

/-- Witness for C5: `"other"` round-trips through `Other` in both
directions. -/
theorem c5_data_source_round_trip_witness :
    (DataSource.from_str "other").as_str = "other" ∧
    ("other" ≠ "faceit" ∧ "other" ≠ "matchmaking" ∧
      DataSource.from_str "other" = .Other "other") ∧
    DataSource.from_str (DataSource.Other "other").as_str =
      DataSource.Other "other" := by
  refine ⟨c5_data_source_round_trip.1 "other",
    ⟨by decide, by decide,
      c5_data_source_round_trip.2.1 "other" (by decide) (by decide)⟩, ?_⟩
  refine c5_data_source_round_trip.2.2.2.2 (DataSource.Other "other") ?_
  intro s hs
  injection hs with h
  subst h
  exact ⟨by decide, by decide⟩

/-- C6: every operation's built request carries the `_leetify_key` header
with the configured key when one is set, and no such header otherwise. -/
theorem c6_api_key_header (c : Client) (id : PlayerId) (game_id : String)
    (ds : DataSource) (ds_id : String) :
    (∀ key, c.api_key = some key →
      ((API_KEY_HEADER, key) ∈ (c.get_profile_request id).headers ∧
        (API_KEY_HEADER, key) ∈ (c.get_profile_matches_request id).headers ∧
        (API_KEY_HEADER, key) ∈ (c.get_match_by_game_id_request game_id).headers ∧
        (API_KEY_HEADER, key) ∈
          (c.get_match_by_data_source_request ds ds_id).headers ∧
        (API_KEY_HEADER, key) ∈ c.validate_api_key_request.headers)) ∧
    (c.api_key = none →
      ((∀ v, (API_KEY_HEADER, v) ∉ (c.get_profile_request id).headers) ∧
        (∀ v, (API_KEY_HEADER, v) ∉ (c.get_profile_matches_request id).headers) ∧
        (∀ v, (API_KEY_HEADER, v) ∉ (c.get_match_by_game_id_request game_id).headers) ∧
        (∀ v, (API_KEY_HEADER, v) ∉
          (c.get_match_by_data_source_request ds ds_id).headers) ∧
        (∀ v, (API_KEY_HEADER, v) ∉ c.validate_api_key_request.headers))) := by
  constructor
  · intro key hk
    refine ⟨?_, ?_, ?_, ?_, ?_⟩ <;> cases id <;>
      simp [Client.get_profile_request, Client.get_profile_matches_request,
        Client.get_match_by_game_id_request, Client.get_match_by_data_source_request,
        Client.validate_api_key_request, Client.add_api_key_header, hk,
        ReqwestClient.get, Request.set_query, Request.add_header,
        Client.build_profile_query_params]
  · intro hk
    refine ⟨?_, ?_, ?_, ?_, ?_⟩ <;> intro v <;> cases id <;>
      simp [Client.get_profile_request, Client.get_profile_matches_request,
        Client.get_match_by_game_id_request, Client.get_match_by_data_source_request,
        Client.validate_api_key_request, Client.add_api_key_header, hk,
        ReqwestClient.get, Request.set_query, Request.add_header,
        Client.build_profile_query_params]

/-- Witness for C6: the keyed test client's profile request carries the
header, the keyless one's does not. -/
theorem c6_api_key_header_witness :
    (test_client_keyed.api_key = some "k1" ∧
      (API_KEY_HEADER, "k1") ∈
        (test_client_keyed.get_profile_request (.Steam64 ⟨"1"⟩)).headers) ∧
    (test_client.api_key = none ∧
      (API_KEY_HEADER, "k1") ∉
        (test_client.get_profile_request (.Steam64 ⟨"1"⟩)).headers) :=
  ⟨⟨rfl,
      ((c6_api_key_header test_client_keyed (.Steam64 ⟨"1"⟩) "g" .FACEIT "d").1
          "k1" rfl).1⟩,
    ⟨rfl,
      ((c6_api_key_header test_client (.Steam64 ⟨"1"⟩) "g" .FACEIT "d").2 rfl).1 "k1"⟩⟩

/-- C7: for every identifier, the profile query parameters are exactly one
pair: `steam64_id` for the Steam64 variant, `id` for the Leetify variant;
the list is never empty, never carries both keys, and is the query of both
profile requests. -/
theorem c7_profile_query_params (c : Client) (id : PlayerId) :
    (∀ sid, id = .Steam64 sid →
      c.build_profile_query_params id = [("steam64_id", sid.val)]) ∧
    (∀ lid, id = .Leetify lid →
      c.build_profile_query_params id = [("id", lid.val)]) ∧
    c.build_profile_query_params id ≠ [] ∧
    ¬(("steam64_id", "id") ∈
        ((c.build_profile_query_params id).map Prod.fst ×ˢ
          (c.build_profile_query_params id).map Prod.fst)) ∧
    (c.get_profile_request id).query = c.build_profile_query_params id ∧
    (c.get_profile_matches_request id).query = c.build_profile_query_params id := by
  refine ⟨?_, ?_, ?_, ?_, ?_, ?_⟩ <;>
    cases id <;>
      simp [Client.build_profile_query_params, Client.get_profile_request,
        Client.get_profile_matches_request, Client.add_api_key_header,
        ReqwestClient.get, Request.set_query, Request.add_header] <;>
    cases c.api_key <;> simp [Request.add_header]

/-- Witness for C7: concrete Steam64 and Leetify identifiers produce the
two query shapes. -/
theorem c7_profile_query_params_witness :
    test_client.build_profile_query_params (.Steam64 ⟨"76561198283431555"⟩) =
      [("steam64_id", "76561198283431555")] ∧
    test_client.build_profile_query_params
        (.Leetify ⟨"5ea07280-2399-4c7e-88ab-f2f7db0c449f"⟩) =
      [("id", "5ea07280-2399-4c7e-88ab-f2f7db0c449f")] :=
  ⟨(c7_profile_query_params test_client (.Steam64 ⟨"76561198283431555"⟩)).1
      ⟨"76561198283431555"⟩ rfl,
    (c7_profile_query_params test_client
        (.Leetify ⟨"5ea07280-2399-4c7e-88ab-f2f7db0c449f"⟩)).2.1
      ⟨"5ea07280-2399-4c7e-88ab-f2f7db0c449f"⟩ rfl⟩

/-- C8: the Player facade is pure delegation: `profile()` is the client's
`get_profile` at the bound identifier and `matches()` is the client's
`get_profile_matches` at the bound identifier, for every transport and
decoder, with no state between calls. -/
theorem c8_player_delegation {α β : Type} (p : Player)
    (transport : Request → Response) (decodeP : String → Except String α)
    (decodeM : String → Except String β) :
    p.profile transport decodeP = p.client.get_profile transport decodeP p.id ∧
    p.matches transport decodeM = p.client.get_profile_matches transport decodeM p.id ∧
    (Player.new p.id p.client).profile transport decodeP =
      p.client.get_profile transport decodeP p.id ∧
    (Player.new p.id p.client).matches transport decodeM =
      p.client.get_profile_matches transport decodeM p.id :=
  ⟨rfl, rfl, rfl, rfl⟩

/-- Witness for C8 at a concrete bound player. -/
theorem c8_player_delegation_witness :
    (Player.new (.Steam64 ⟨"1"⟩) test_client).profile transport_401 decode_fail =
      test_client.get_profile transport_401 decode_fail (.Steam64 ⟨"1"⟩) :=
  (c8_player_delegation (Player.new (.Steam64 ⟨"1"⟩) test_client) transport_401
      decode_fail decode_fail).1

/-- C9: a builder never told a timeout builds a client whose transport
timeout is 30 seconds; `timeout(d)` makes it `d`; the other builder
setters leave the timeout alone; and every operation's request carries the
client's one timeout. -/
theorem c9_timeout_configuration (b : ClientBuilder) (d : Duration)
    (url key : String) (rb : ReqwestClientBuilder) (c : Client) (id : PlayerId)
    (game_id : String) (ds : DataSource) (ds_id : String) :
    (∀ cl, ClientBuilder.new.build = .ok cl →
      cl.client.timeout = some (Duration.from_secs 30)) ∧
    (∀ cl, (b.set_timeout d).build = .ok cl → cl.client.timeout = some d) ∧
    (b.set_base_url url).timeout = b.timeout ∧
    (b.set_api_key key).timeout = b.timeout ∧
    (b.set_client_builder rb).timeout = b.timeout ∧
    (∀ cl, b.build = .ok cl →
      cl.client.timeout = some (b.timeout.getD DEFAULT_TIMEOUT)) ∧
    ((c.get_profile_request id).timeout = c.client.timeout ∧
      (c.get_profile_matches_request id).timeout = c.client.timeout ∧
      (c.get_match_by_game_id_request game_id).timeout = c.client.timeout ∧
      (c.get_match_by_data_source_request ds ds_id).timeout = c.client.timeout ∧
      c.validate_api_key_request.timeout = c.client.timeout) := by
  refine ⟨?_, ?_, rfl, rfl, rfl, ?_, ?_⟩
  · intro cl h
    injection h with h
    subst h
    rfl
  · intro cl h
    injection h with h
    subst h
    rfl
  · intro cl h
    injection h with h
    subst h
    rfl
  · refine ⟨?_, ?_, ?_, ?_, ?_⟩ <;> cases id <;>
      simp [Client.get_profile_request, Client.get_profile_matches_request,
        Client.get_match_by_game_id_request, Client.get_match_by_data_source_request,
        Client.validate_api_key_request, Client.add_api_key_header,
        ReqwestClient.get, Request.set_query, Request.add_header,
        Client.build_profile_query_params] <;>
      cases c.api_key <;> simp [Request.add_header]

/-- Witness for C9: building `ClientBuilder::new` unchanged yields the
concrete default client, whose timeout is 30 seconds. -/
theorem c9_timeout_configuration_witness :
    ClientBuilder.new.build = .ok default_built_client ∧
    default_built_client.client.timeout = some (Duration.from_secs 30) :=
  ⟨rfl,
    (c9_timeout_configuration ClientBuilder.new (Duration.from_secs 5) "u" "k"
        ReqwestClientBuilder.new default_built_client (.Steam64 ⟨"1"⟩) "g" .FACEIT
        "d").1 default_built_client rfl⟩

/-- Lemma: `handle_response` never produces the `Json` error variant. -/
theorem returns_json_error_handle_response {α : Type} (c : Client)
    (decode : String → Except String α) (resp : Response) :
    returns_json_error (c.handle_response decode resp) = false := by
  unfold Client.handle_response
  by_cases hs : status_is_success resp.status
  · cases hd : decode resp.body <;> simp [returns_json_error, hs, hd]
  · by_cases h1 : resp.status = 401
    · simp [returns_json_error, hs, h1, status_is_success]
    · by_cases h2 : resp.status = 500
      · simp [returns_json_error, hs, h1, h2, status_is_success]
      · simp only [status_is_success, Bool.and_eq_true, decide_eq_true_eq] at hs
        simp [returns_json_error, hs, h1, h2, status_is_success]

/-- C10: no public operation can return the `Json` (decode-failure) error
variant: for every client, transport, decoder and argument, the result is
never `Error::Json`. -/
theorem c10_json_variant_unreachable {α β γ δ : Type} (c : Client)
    (transport : Request → Response)
    (dp : String → Except String α) (dm : String → Except String β)
    (dg : String → Except String γ) (dd : String → Except String δ)
    (id : PlayerId) (game_id : String) (ds : DataSource) (ds_id : String) :
    returns_json_error (c.get_profile transport dp id) = false ∧
    returns_json_error (c.get_profile_matches transport dm id) = false ∧
    returns_json_error (c.get_match_by_game_id transport dg game_id) = false ∧
    returns_json_error (c.get_match_by_data_source transport dd ds ds_id) = false ∧
    returns_json_error (c.validate_api_key transport) = false := by
  refine ⟨returns_json_error_handle_response c dp _,
    returns_json_error_handle_response c dm _,
    returns_json_error_handle_response c dg _,
    returns_json_error_handle_response c dd _, ?_⟩
  by_cases h0 : (transport c.validate_api_key_request).status = 200
  · simp [Client.validate_api_key, returns_json_error, h0]
  · by_cases h1 : (transport c.validate_api_key_request).status = 401
    · simp [Client.validate_api_key, returns_json_error, h0, h1]
    · by_cases h2 : (transport c.validate_api_key_request).status = 500 <;>
        simp [Client.validate_api_key, returns_json_error, h0, h1, h2]

/-- Witness for C10 at a concrete client, transport and decoder. -/
theorem c10_json_variant_unreachable_witness :
    returns_json_error
      (test_client.get_profile transport_401 decode_fail (.Steam64 ⟨"1"⟩)) = false :=
  (c10_json_variant_unreachable test_client transport_401 decode_fail decode_fail
      decode_fail decode_fail (.Steam64 ⟨"1"⟩) "g" .FACEIT "d").1

end Leetify
